import Mathlib

/-!
Shallow embedding of the Telemetry Buffer Engine of
`src/web/sugar_level_monitor.py` (Flask app "Sugar Level Meter").

Modelling conventions:
* Python floats are modelled by exact rationals (`ℚ`); all constants in the
  source (0.6, 36.5, 0.8, 0.1, ...) are exact decimals.
* Wall-clock timestamps (`datetime.now()`) are modelled as rational numbers of
  seconds, passed explicitly to every operation that reads the clock.
* The two hidden inputs of `calculate_glucose` — the circadian sine term
  `5 * sin(seconds_of_day/3600 * pi/12)` and the Gaussian noise sample
  `np.random.normal(0, 1.5)` — are passed as explicit rational parameters
  `circadian` and `noise`, exactly as the spec requires time and randomness
  to be injectable.
* Python `round(x, 1)` is modelled by `round1` below; it differs from
  Python's banker's rounding only on exact `.05` ties, which no claim here
  depends on.
* The global `sensor_store` dict-based state becomes the structure
  `SensorDataStore`; dict access `data_buffers[name]` / `last_updates[name]`
  with `name ∈ {"manual", "esp32"}` becomes the accessors
  `SensorDataStore.buffer` / `SensorDataStore.lastUpdate`.
* Flask request handlers become pure state-transformer functions returning
  the new state together with the observable parts of the JSON response;
  an early-return error path becomes an `Except.error` second component with
  the state returned unchanged.
-/

namespace SugarLevelMonitor

/-- The `sensor_store.sensor_values` dict (one shared instance for both
sources, as in `SensorDataStore.__init__`). -/
structure SensorValues where
  red_signal : ℚ
  ir_signal : ℚ
  temperature : ℚ
  motion : ℚ
  last_update : Option ℚ
  device_connected : Bool
  data_source : String
  deriving DecidableEq, Repr

/-- A data point as built by `generate_glucose_point` (the `Time` field is the
generation timestamp; the source stores it formatted `"%H:%M:%S"`). -/
structure GlucosePoint where
  time : ℚ
  glucose : ℚ
  red : ℚ
  ir : ℚ
  temperature : ℚ
  motion : ℚ
  deriving DecidableEq, Repr

/-- The process-wide `SensorDataStore` state: shared sensor values, the two
bounded history deques, the active-buffer name and the per-buffer
last-generation timestamps. -/
structure SensorDataStore where
  sensor_values : SensorValues
  manual_buffer : List GlucosePoint
  esp32_buffer : List GlucosePoint
  active_buffer : String
  last_update_manual : Option ℚ
  last_update_esp32 : Option ℚ
  deriving DecidableEq, Repr

/-- Initial state from `SensorDataStore.__init__`. -/
def initStore : SensorDataStore :=
  { sensor_values :=
      { red_signal := 0.6
        ir_signal := 0.7
        temperature := 36.5
        motion := 0.3
        last_update := none
        device_connected := false
        data_source := "manual" }
    manual_buffer := []
    esp32_buffer := []
    active_buffer := "manual"
    last_update_manual := none
    last_update_esp32 := none }

/-- Dict read `sensor_store.data_buffers[name]` (callers only use the keys
`"manual"` and `"esp32"`). -/
def SensorDataStore.buffer (s : SensorDataStore) (name : String) : List GlucosePoint :=
  if name = "manual" then s.manual_buffer else s.esp32_buffer

/-- Dict read `sensor_store.last_updates[name]`. -/
def SensorDataStore.lastUpdate (s : SensorDataStore) (name : String) : Option ℚ :=
  if name = "manual" then s.last_update_manual else s.last_update_esp32

/-- Dict write `sensor_store.data_buffers[name] = l`. -/
def SensorDataStore.setBuffer (s : SensorDataStore) (name : String)
    (l : List GlucosePoint) : SensorDataStore :=
  if name = "manual" then { s with manual_buffer := l } else { s with esp32_buffer := l }

/-- Dict write `sensor_store.last_updates[name] = v`. -/
def SensorDataStore.setLastUpdate (s : SensorDataStore) (name : String)
    (v : Option ℚ) : SensorDataStore :=
  if name = "manual" then { s with last_update_manual := v } else { s with last_update_esp32 := v }

/-- `deque(maxlen=30).append(p)`: append on the right, evicting from the left
once the buffer holds 30 points. -/
def dequeAppend (l : List GlucosePoint) (p : GlucosePoint) : List GlucosePoint :=
  let l2 := l ++ [p]
  l2.drop (l2.length - 30)

/-- `np.clip(x, lo, hi)` for `lo ≤ hi`. -/
def npClip (x lo hi : ℚ) : ℚ := min hi (max lo x)

/-- Python `round(q, 1)` (see the rounding note in the file header). -/
def round1 (q : ℚ) : ℚ := (round (q * 10) : ℤ) / 10

/-- `calculate_glucose` (source lines 48–65); `circadian` and `noise` are the
injected time-of-day sine term and the Gaussian sample. -/
def calculate_glucose (red ir temp motion : ℚ) (circadian noise : ℚ)
    (prev_glucose : Option ℚ) : ℚ :=
  let optical_effect := (2 - (red + ir)) * 90
  let temp_effect := (temp - 36.5) * 3
  let motion_effect := -motion * 40
  let glucose := optical_effect + temp_effect + motion_effect + circadian + noise
  let glucose2 :=
    match prev_glucose with
    | some prev => 0.8 * prev + 0.2 * glucose
    | none => glucose
  npClip glucose2 20 200

/-- `get_previous_glucose` (source lines 67–72): glucose of `buffer[-1]`. -/
def get_previous_glucose (s : SensorDataStore) (buffer_name : String) : Option ℚ :=
  (s.buffer buffer_name).getLast?.map fun p => p.glucose

/-- `generate_glucose_point` (source lines 74–99): read the shared
`sensor_values`, smooth against the previous glucose of the named buffer,
and snapshot the shared sensor fields into the new point. -/
def generate_glucose_point (s : SensorDataStore) (buffer_name : String)
    (now circadian noise : ℚ) : GlucosePoint :=
  let prev_glucose := get_previous_glucose s buffer_name
  let glucose := calculate_glucose s.sensor_values.red_signal s.sensor_values.ir_signal
    s.sensor_values.temperature s.sensor_values.motion circadian noise prev_glucose
  { time := now
    glucose := round1 glucose
    red := s.sensor_values.red_signal
    ir := s.sensor_values.ir_signal
    temperature := s.sensor_values.temperature
    motion := s.sensor_values.motion }

/-- The generation guard of `get_current_data` (source lines 133–139):
generate when `last_updates[buffer]` is absent or `now - last ≥ 1.0`. -/
def should_generate (s : SensorDataStore) (now : ℚ) : Bool :=
  match s.lastUpdate s.active_buffer with
  | none => true
  | some t => decide (1 ≤ now - t)

/-- The point-generation step of `get_current_data` (source lines 129–144),
the spec's `maybe_generate`: returns the updated store and the freshly
generated point, if any. -/
def maybe_generate (s : SensorDataStore) (now circadian noise : ℚ) :
    SensorDataStore × Option GlucosePoint :=
  let buffer_name := s.active_buffer
  if should_generate s now then
    let new_point := generate_glucose_point s buffer_name now circadian noise
    (((s.setBuffer buffer_name (dequeAppend (s.buffer buffer_name) new_point)).setLastUpdate
        buffer_name (some now)),
      some new_point)
  else (s, none)

/-- The y-axis range computation of `get_current_data` (source lines 149–166):
default `(50, 150)` on an empty buffer, else pad the min/max by
`max(5, span*0.1)`, clamp to `[20, 200]`, and recenter to a 20-unit window
when the clamped span is under 20. -/
def estimate_range (buffer_data : List GlucosePoint) : ℚ × ℚ :=
  match buffer_data with
  | [] => (50, 150)
  | p :: rest =>
    let glucose_values := rest.map fun q => q.glucose
    let min_glucose := glucose_values.foldl min p.glucose
    let max_glucose := glucose_values.foldl max p.glucose
    let padding := max 5 ((max_glucose - min_glucose) * 0.1)
    let y_min := max 20 (min_glucose - padding)
    let y_max := min 200 (max_glucose + padding)
    if y_max - y_min < 20 then
      let center := (y_max + y_min) / 2
      (center - 10, center + 10)
    else (y_min, y_max)

/-- Observable fields of the `get_current_data` JSON response
(source lines 168–180). -/
structure CurrentDataResponse where
  data_source : String
  sensor_values : SensorValues
  glucose_data : List GlucosePoint
  data_count : Nat
  y_range : ℚ × ℚ
  last_update : Option ℚ
  timestamp : ℚ
  deriving DecidableEq, Repr

/-- The `/api/get-current-data` handler (source lines 124–180): run the
generation step, then report the active buffer, the shared sensor values
(including `device_connected`), the history, and the rounded y-range. -/
def get_current_data (s : SensorDataStore) (now circadian noise : ℚ) :
    SensorDataStore × Option GlucosePoint × CurrentDataResponse :=
  let buffer_name := s.active_buffer
  let r := maybe_generate s now circadian noise
  let s2 := r.1
  let buffer_data := s2.buffer buffer_name
  let yr := estimate_range buffer_data
  (s2, r.2,
    { data_source := buffer_name
      sensor_values := s2.sensor_values
      glucose_data := buffer_data
      data_count := buffer_data.length
      y_range := (round1 yr.1, round1 yr.2)
      last_update := s2.lastUpdate buffer_name
      timestamp := now })

/-- The `/api/set-data-source` handler (source lines 186–212): reject ids
outside `{"manual", "esp32"}` before any mutation; on success set the active
buffer and the `data_source` echo field of the shared sensor values. -/
def set_data_source (s : SensorDataStore) (data_source : Option String) :
    SensorDataStore × Except String String :=
  let new_source := data_source.getD "manual"
  if new_source = "manual" ∨ new_source = "esp32" then
    ({ s with
        active_buffer := new_source
        sensor_values := { s.sensor_values with data_source := new_source } },
      Except.ok new_source)
  else (s, Except.error "Invalid data source")

/-- The optional per-field payload of an ingestion request; an absent field
keeps its previous value (`data.get(key, current)`). -/
structure IngestInput where
  red_signal : Option ℚ
  ir_signal : Option ℚ
  temperature : Option ℚ
  motion : Option ℚ
  deriving DecidableEq, Repr

/-- An ingestion request that supplies no field. -/
def emptyIngest : IngestInput :=
  { red_signal := none, ir_signal := none, temperature := none, motion := none }

/-- The `sensor_values.update({...})` of `receive_sensor_data`
(source lines 224–231): overwrite the four sensor fields (defaulting each to
its prior value), stamp `last_update = now`, and set `device_connected`. -/
def apply_esp32_update (sv : SensorValues) (inp : IngestInput) (now : ℚ) : SensorValues :=
  { sv with
    red_signal := inp.red_signal.getD sv.red_signal
    ir_signal := inp.ir_signal.getD sv.ir_signal
    temperature := inp.temperature.getD sv.temperature
    motion := inp.motion.getD sv.motion
    last_update := some now
    device_connected := true }

/-- The `sensor_values.update({...})` of `update_sensors`
(source lines 260–266): same field overwrite but `device_connected = False`
and no `last_update` stamp. -/
def apply_manual_update (sv : SensorValues) (inp : IngestInput) : SensorValues :=
  { sv with
    red_signal := inp.red_signal.getD sv.red_signal
    ir_signal := inp.ir_signal.getD sv.ir_signal
    temperature := inp.temperature.getD sv.temperature
    motion := inp.motion.getD sv.motion
    device_connected := false }

/-- The `/api/sensor-data` handler `receive_sensor_data`
(source lines 214–249): update the shared sensor values, then — only when
the ESP32 buffer is active — generate and append a point immediately and
stamp `last_updates["esp32"] = now`. -/
def receive_sensor_data (s : SensorDataStore) (inp : IngestInput)
    (now circadian noise : ℚ) : SensorDataStore :=
  let s2 := { s with sensor_values := apply_esp32_update s.sensor_values inp now }
  if s2.active_buffer = "esp32" then
    let new_point := generate_glucose_point s2 "esp32" now circadian noise
    (s2.setBuffer "esp32" (dequeAppend (s2.buffer "esp32") new_point)).setLastUpdate
      "esp32" (some now)
  else s2

/-- The `/api/update-sensors` handler `update_sensors`
(source lines 251–284): update the shared sensor values, then — only when
the manual buffer is active — generate and append a point immediately and
stamp `last_updates["manual"] = now`. -/
def update_sensors (s : SensorDataStore) (inp : IngestInput)
    (now circadian noise : ℚ) : SensorDataStore :=
  let s2 := { s with sensor_values := apply_manual_update s.sensor_values inp }
  if s2.active_buffer = "manual" then
    let new_point := generate_glucose_point s2 "manual" now circadian noise
    (s2.setBuffer "manual" (dequeAppend (s2.buffer "manual") new_point)).setLastUpdate
      "manual" (some now)
  else s2

/-- The `/api/clear-buffer` handler (source lines 306–327): default the name
to the active buffer, reject names outside the buffer dict with no mutation,
else empty the history and reset the last-generation timestamp. -/
def clear_buffer (s : SensorDataStore) (buffer_name : Option String) :
    SensorDataStore × Except String String :=
  let name := buffer_name.getD s.active_buffer
  if name = "manual" ∨ name = "esp32" then
    ((s.setBuffer name []).setLastUpdate name none, Except.ok name)
  else (s, Except.error "Invalid buffer name")

/-- Folding a whole sequence of appends into an initially empty deque
(models N successive `deque(maxlen=30).append` calls). -/
def appendAll (xs : List GlucosePoint) : List GlucosePoint :=
  xs.foldl dequeAppend []

/-- A point whose sensor snapshot is the default reading; used to build
concrete buffers in counterexamples and witnesses. -/
def ptG (g : ℚ) : GlucosePoint :=
  { time := 0, glucose := g, red := 0.6, ir := 0.7, temperature := 36.5, motion := 0.3 }

/-- States reachable from the initial store through the public handlers;
"every point ever stored" quantifies over these. -/
inductive Reachable : SensorDataStore → Prop where
  | init : Reachable initStore
  | poll (s : SensorDataStore) (now circadian noise : ℚ) :
      Reachable s → Reachable (get_current_data s now circadian noise).1
  | device_push (s : SensorDataStore) (inp : IngestInput) (now circadian noise : ℚ) :
      Reachable s → Reachable (receive_sensor_data s inp now circadian noise)
  | manual_push (s : SensorDataStore) (inp : IngestInput) (now circadian noise : ℚ) :
      Reachable s → Reachable (update_sensors s inp now circadian noise)
  | set_source (s : SensorDataStore) (id : Option String) :
      Reachable s → Reachable (set_data_source s id).1
  | clear (s : SensorDataStore) (name : Option String) :
      Reachable s → Reachable (clear_buffer s name).1

/-- Every point in either history buffer has its glucose in the clip range. -/
def buffersInRange (s : SensorDataStore) : Prop :=
  ∀ p ∈ s.manual_buffer ++ s.esp32_buffer, 20 ≤ p.glucose ∧ p.glucose ≤ 200

instance (s : SensorDataStore) : Decidable (buffersInRange s) := by
  unfold buffersInRange; infer_instance

section AccessorLemmas

variable (s : SensorDataStore) (name m : String) (l : List GlucosePoint) (v : Option ℚ)

@[simp] theorem buffer_def : s.buffer name =
    if name = "manual" then s.manual_buffer else s.esp32_buffer := rfl

@[simp] theorem lastUpdate_def : s.lastUpdate name =
    if name = "manual" then s.last_update_manual else s.last_update_esp32 := rfl

@[simp] theorem manual_buffer_setBuffer : (s.setBuffer name l).manual_buffer =
    if name = "manual" then l else s.manual_buffer := by
  unfold SensorDataStore.setBuffer; split <;> simp_all

@[simp] theorem esp32_buffer_setBuffer : (s.setBuffer name l).esp32_buffer =
    if name = "manual" then s.esp32_buffer else l := by
  unfold SensorDataStore.setBuffer; split <;> simp_all

@[simp] theorem manual_last_setLastUpdate : (s.setLastUpdate name v).last_update_manual =
    if name = "manual" then v else s.last_update_manual := by
  unfold SensorDataStore.setLastUpdate; split <;> simp_all

@[simp] theorem esp32_last_setLastUpdate : (s.setLastUpdate name v).last_update_esp32 =
    if name = "manual" then s.last_update_esp32 else v := by
  unfold SensorDataStore.setLastUpdate; split <;> simp_all

@[simp] theorem manual_buffer_setLastUpdate :
    (s.setLastUpdate name v).manual_buffer = s.manual_buffer := by
  unfold SensorDataStore.setLastUpdate; split <;> rfl

@[simp] theorem esp32_buffer_setLastUpdate :
    (s.setLastUpdate name v).esp32_buffer = s.esp32_buffer := by
  unfold SensorDataStore.setLastUpdate; split <;> rfl

@[simp] theorem manual_last_setBuffer :
    (s.setBuffer name l).last_update_manual = s.last_update_manual := by
  unfold SensorDataStore.setBuffer; split <;> rfl

@[simp] theorem esp32_last_setBuffer :
    (s.setBuffer name l).last_update_esp32 = s.last_update_esp32 := by
  unfold SensorDataStore.setBuffer; split <;> rfl

@[simp] theorem sensorValues_setBuffer :
    (s.setBuffer name l).sensor_values = s.sensor_values := by
  unfold SensorDataStore.setBuffer; split <;> rfl

@[simp] theorem sensorValues_setLastUpdate :
    (s.setLastUpdate name v).sensor_values = s.sensor_values := by
  unfold SensorDataStore.setLastUpdate; split <;> rfl

@[simp] theorem active_setBuffer :
    (s.setBuffer name l).active_buffer = s.active_buffer := by
  unfold SensorDataStore.setBuffer; split <;> rfl

@[simp] theorem active_setLastUpdate :
    (s.setLastUpdate name v).active_buffer = s.active_buffer := by
  unfold SensorDataStore.setLastUpdate; split <;> rfl

end AccessorLemmas

theorem sensorValues_maybe_generate (s : SensorDataStore) (now c n : ℚ) :
    (maybe_generate s now c n).1.sensor_values = s.sensor_values := by
  unfold maybe_generate; split <;> simp

theorem active_maybe_generate (s : SensorDataStore) (now c n : ℚ) :
    (maybe_generate s now c n).1.active_buffer = s.active_buffer := by
  unfold maybe_generate; split <;> simp

theorem response_sensorValues (s : SensorDataStore) (now c n : ℚ) :
    (get_current_data s now c n).2.2.sensor_values = s.sensor_values := by
  unfold get_current_data
  exact sensorValues_maybe_generate s now c n

theorem sensorValues_receive (s : SensorDataStore) (inp : IngestInput) (t c n : ℚ) :
    (receive_sensor_data s inp t c n).sensor_values =
      apply_esp32_update s.sensor_values inp t := by
  simp only [receive_sensor_data]; split <;> simp

theorem sensorValues_update (s : SensorDataStore) (inp : IngestInput) (t c n : ℚ) :
    (update_sensors s inp t c n).sensor_values =
      apply_manual_update s.sensor_values inp := by
  simp only [update_sensors]; split <;> simp

theorem dequeAppend_def (l : List GlucosePoint) (p : GlucosePoint) :
    dequeAppend l p = (l ++ [p]).drop (l.length + 1 - 30) := by
  simp [dequeAppend]

theorem length_dequeAppend (l : List GlucosePoint) (p : GlucosePoint) :
    (dequeAppend l p).length = l.length + 1 - (l.length + 1 - 30) := by
  rw [dequeAppend_def]; simp

theorem mem_dequeAppend {l : List GlucosePoint} {p q : GlucosePoint}
    (h : q ∈ dequeAppend l p) : q ∈ l ∨ q = p := by
  rw [dequeAppend_def] at h
  have := List.mem_of_mem_drop h
  simpa using this

theorem foldl_dequeAppend (xs : List GlucosePoint) :
    ∀ l : List GlucosePoint, l.length ≤ 30 →
      xs.foldl dequeAppend l = (l ++ xs).drop (l.length + xs.length - 30) := by
  induction xs with
  | nil =>
    intro l hl
    simp [Nat.sub_eq_zero_of_le hl]
  | cons x t ih =>
    intro l hl
    rw [List.foldl_cons, ih (dequeAppend l x) (by rw [length_dequeAppend]; omega)]
    rw [length_dequeAppend, dequeAppend_def]
    have hle : l.length + 1 - 30 ≤ (l ++ [x]).length := by simp; omega
    have h1 : ((l ++ [x]) ++ t).drop (l.length + 1 - 30) =
        (l ++ [x]).drop (l.length + 1 - 30) ++ t := by
      rw [List.drop_append_eq_append_drop, Nat.sub_eq_zero_of_le hle, List.drop_zero]
    rw [← h1, List.drop_drop, List.append_assoc, List.singleton_append]
    congr 1
    simp only [List.length_cons]
    omega

theorem foldl_min_all_eq (l : List ℚ) (a : ℚ) (h : ∀ x ∈ l, x = a) :
    l.foldl min a = a := by
  induction l with
  | nil => rfl
  | cons x t ih =>
    have hx : x = a := h x (List.mem_cons_self x t)
    rw [List.foldl_cons, hx, min_self]
    exact ih fun y hy => h y (List.mem_cons_of_mem x hy)

theorem foldl_max_all_eq (l : List ℚ) (a : ℚ) (h : ∀ x ∈ l, x = a) :
    l.foldl max a = a := by
  induction l with
  | nil => rfl
  | cons x t ih =>
    have hx : x = a := h x (List.mem_cons_self x t)
    rw [List.foldl_cons, hx, max_self]
    exact ih fun y hy => h y (List.mem_cons_of_mem x hy)

theorem npClip_mem (x : ℚ) : 20 ≤ npClip x 20 200 ∧ npClip x 20 200 ≤ 200 :=
  ⟨le_min (by norm_num) (le_max_left _ _), min_le_left _ _⟩

theorem round1_mem (q : ℚ) (h1 : 20 ≤ q) (h2 : q ≤ 200) :
    20 ≤ round1 q ∧ round1 q ≤ 200 := by
  have ha := abs_sub_round (q * 10)
  rw [abs_le] at ha
  have hlo : (200 : ℤ) ≤ round (q * 10) := by
    have h : (399 : ℚ) ≤ 2 * (round (q * 10) : ℤ) := by
      nlinarith [ha.1, ha.2]
    have h' : (399 : ℤ) ≤ 2 * round (q * 10) := by exact_mod_cast h
    omega
  have hhi : round (q * 10) ≤ (2000 : ℤ) := by
    have h : 2 * ((round (q * 10) : ℤ) : ℚ) ≤ 4001 := by
      nlinarith [ha.1, ha.2]
    have h' : 2 * round (q * 10) ≤ (4001 : ℤ) := by exact_mod_cast h
    omega
  have hloq : (200 : ℚ) ≤ (round (q * 10) : ℤ) := by exact_mod_cast hlo
  have hhiq : ((round (q * 10) : ℤ) : ℚ) ≤ 2000 := by exact_mod_cast hhi
  unfold round1
  constructor
  · rw [le_div_iff₀ (by norm_num : (0:ℚ) < 10)]
    linarith
  · rw [div_le_iff₀ (by norm_num : (0:ℚ) < 10)]
    linarith

theorem calculate_glucose_mem (red ir temp motion circadian noise : ℚ)
    (prev : Option ℚ) :
    20 ≤ calculate_glucose red ir temp motion circadian noise prev ∧
      calculate_glucose red ir temp motion circadian noise prev ≤ 200 :=
  npClip_mem _

theorem generate_glucose_point_mem (s : SensorDataStore) (b : String) (now c n : ℚ) :
    20 ≤ (generate_glucose_point s b now c n).glucose ∧
      (generate_glucose_point s b now c n).glucose ≤ 200 := by
  have h := calculate_glucose_mem s.sensor_values.red_signal s.sensor_values.ir_signal
    s.sensor_values.temperature s.sensor_values.motion c n (get_previous_glucose s b)
  exact round1_mem _ h.1 h.2

theorem maybe_generate_gen (s : SensorDataStore) (t1 c1 n1 : ℚ)
    (hg : should_generate s t1 = true) :
    maybe_generate s t1 c1 n1 =
      ((s.setBuffer s.active_buffer (dequeAppend (s.buffer s.active_buffer)
          (generate_glucose_point s s.active_buffer t1 c1 n1))).setLastUpdate
        s.active_buffer (some t1),
        some (generate_glucose_point s s.active_buffer t1 c1 n1)) := by
  simp [maybe_generate, hg]

theorem maybe_generate_noop (s : SensorDataStore) (t2 c2 n2 t : ℚ)
    (hl : s.lastUpdate s.active_buffer = some t) (hlt : t2 - t < 1) :
    maybe_generate s t2 c2 n2 = (s, none) := by
  have hg : should_generate s t2 = false := by
    unfold should_generate
    rw [hl]
    simp only [decide_eq_false_iff_not, not_le]
    linarith
  simp [maybe_generate, hg]

theorem receive_active_esp32 (s : SensorDataStore) (inp : IngestInput) (t c n : ℚ)
    (h : s.active_buffer = "esp32") :
    receive_sensor_data s inp t c n =
      (({ s with sensor_values := apply_esp32_update s.sensor_values inp t }).setBuffer "esp32"
        (dequeAppend s.esp32_buffer
          (generate_glucose_point
            { s with sensor_values := apply_esp32_update s.sensor_values inp t }
            "esp32" t c n))).setLastUpdate "esp32" (some t) := by
  simp only [receive_sensor_data]
  have h' : ({ s with sensor_values := apply_esp32_update s.sensor_values inp t } :
      SensorDataStore).active_buffer = "esp32" := h
  rw [if_pos h']
  rfl

theorem receive_inactive (s : SensorDataStore) (inp : IngestInput) (t c n : ℚ)
    (h : ¬ s.active_buffer = "esp32") :
    receive_sensor_data s inp t c n =
      { s with sensor_values := apply_esp32_update s.sensor_values inp t } := by
  simp only [receive_sensor_data]
  rw [if_neg h]

theorem update_active_manual (s : SensorDataStore) (inp : IngestInput) (t c n : ℚ)
    (h : s.active_buffer = "manual") :
    update_sensors s inp t c n =
      (({ s with sensor_values := apply_manual_update s.sensor_values inp }).setBuffer "manual"
        (dequeAppend s.manual_buffer
          (generate_glucose_point
            { s with sensor_values := apply_manual_update s.sensor_values inp }
            "manual" t c n))).setLastUpdate "manual" (some t) := by
  simp only [update_sensors]
  have h' : ({ s with sensor_values := apply_manual_update s.sensor_values inp } :
      SensorDataStore).active_buffer = "manual" := h
  rw [if_pos h']
  rfl

theorem update_inactive (s : SensorDataStore) (inp : IngestInput) (t c n : ℚ)
    (h : ¬ s.active_buffer = "manual") :
    update_sensors s inp t c n =
      { s with sensor_values := apply_manual_update s.sensor_values inp } := by
  simp only [update_sensors]
  rw [if_neg h]

theorem buffersInRange_append (s : SensorDataStore) (name : String) (pt : GlucosePoint)
    (v : Option ℚ) (h : buffersInRange s) (hpt : 20 ≤ pt.glucose ∧ pt.glucose ≤ 200) :
    buffersInRange ((s.setBuffer name (dequeAppend (s.buffer name) pt)).setLastUpdate name v) := by
  intro q hq
  rw [List.mem_append] at hq
  simp only [manual_buffer_setLastUpdate, manual_buffer_setBuffer,
    esp32_buffer_setLastUpdate, esp32_buffer_setBuffer, buffer_def] at hq
  by_cases hn : name = "manual" <;> simp only [hn, if_true, if_false] at hq
  · rcases hq with hq | hq
    · rcases mem_dequeAppend hq with h' | h'
      · exact h q (List.mem_append.2 (Or.inl h'))
      · exact h' ▸ hpt
    · exact h q (List.mem_append.2 (Or.inr hq))
  · rcases hq with hq | hq
    · exact h q (List.mem_append.2 (Or.inl hq))
    · rcases mem_dequeAppend hq with h' | h'
      · exact h q (List.mem_append.2 (Or.inr h'))
      · exact h' ▸ hpt

theorem buffersInRange_clear_set (s : SensorDataStore) (name : String) (v : Option ℚ)
    (h : buffersInRange s) :
    buffersInRange ((s.setBuffer name []).setLastUpdate name v) := by
  intro q hq
  rw [List.mem_append] at hq
  simp only [manual_buffer_setLastUpdate, manual_buffer_setBuffer,
    esp32_buffer_setLastUpdate, esp32_buffer_setBuffer] at hq
  by_cases hn : name = "manual" <;> simp only [hn, if_true, if_false] at hq
  · rcases hq with hq | hq
    · exact absurd hq (List.not_mem_nil q)
    · exact h q (List.mem_append.2 (Or.inr hq))
  · rcases hq with hq | hq
    · exact h q (List.mem_append.2 (Or.inl hq))
    · exact absurd hq (List.not_mem_nil q)

theorem buffersInRange_maybe_generate (s : SensorDataStore) (now c n : ℚ)
    (h : buffersInRange s) : buffersInRange (maybe_generate s now c n).1 := by
  by_cases hg : should_generate s now = true
  · rw [maybe_generate_gen s now c n hg]
    exact buffersInRange_append s s.active_buffer _ _ h
      (generate_glucose_point_mem s s.active_buffer now c n)
  · have hg2 : should_generate s now = false := by simpa using hg
    simp only [maybe_generate, hg2, Bool.false_eq_true, if_false]
    exact h

theorem buffersInRange_receive (s : SensorDataStore) (inp : IngestInput) (t c n : ℚ)
    (h : buffersInRange s) : buffersInRange (receive_sensor_data s inp t c n) := by
  by_cases ha : s.active_buffer = "esp32"
  · rw [receive_active_esp32 s inp t c n ha]
    have h2 : buffersInRange
        ({ s with sensor_values := apply_esp32_update s.sensor_values inp t }) := h
    have h3 := buffersInRange_append
      ({ s with sensor_values := apply_esp32_update s.sensor_values inp t }) "esp32"
      (generate_glucose_point
        { s with sensor_values := apply_esp32_update s.sensor_values inp t } "esp32" t c n)
      (some t) h2 (generate_glucose_point_mem _ _ _ _ _)
    simpa using h3
  · rw [receive_inactive s inp t c n ha]
    exact h

theorem buffersInRange_update (s : SensorDataStore) (inp : IngestInput) (t c n : ℚ)
    (h : buffersInRange s) : buffersInRange (update_sensors s inp t c n) := by
  by_cases ha : s.active_buffer = "manual"
  · rw [update_active_manual s inp t c n ha]
    have h2 : buffersInRange
        ({ s with sensor_values := apply_manual_update s.sensor_values inp }) := h
    have h3 := buffersInRange_append
      ({ s with sensor_values := apply_manual_update s.sensor_values inp }) "manual"
      (generate_glucose_point
        { s with sensor_values := apply_manual_update s.sensor_values inp } "manual" t c n)
      (some t) h2 (generate_glucose_point_mem _ _ _ _ _)
    simpa using h3
  · rw [update_inactive s inp t c n ha]
    exact h

theorem reachable_buffersInRange (s : SensorDataStore) (h : Reachable s) :
    buffersInRange s := by
  induction h with
  | init => intro q hq; simp [initStore] at hq
  | poll s now c n _ ih => exact buffersInRange_maybe_generate s now c n ih
  | device_push s inp now c n _ ih => exact buffersInRange_receive s inp now c n ih
  | manual_push s inp now c n _ ih => exact buffersInRange_update s inp now c n ih
  | set_source s id _ ih =>
    intro q hq
    apply ih q
    simp only [set_data_source] at hq
    split at hq
    · exact hq
    · exact hq
  | clear s name _ ih =>
    intro q hq
    simp only [clear_buffer] at hq
    split at hq
    · exact buffersInRange_clear_set s _ none ih q hq
    · exact ih q hq

/-- C1 counterexample: after a device push at time 0, a data read at time 100
(90 seconds past the claimed 10-second staleness cutoff) still reports
`device_connected = true` even though the ingestion timestamp is `some 0` and
`100 − 0 < 10` fails — so connectivity is not the claimed function of the
ingestion timestamp. -/
theorem C1_counterexample :
    (get_current_data (receive_sensor_data initStore emptyIngest 0 0 0)
        100 0 0).2.2.sensor_values.device_connected = true ∧
    (receive_sensor_data initStore emptyIngest 0 0 0).sensor_values.last_update = some 0 ∧
    ¬ ((100 : ℚ) - 0 < 10) := by
  refine ⟨by decide, by decide, by norm_num⟩

/-- C1 (corrected): connectivity is reported as the stored
`device_connected` flag, not a function of the query time: after any device
push the data read reports `true` at every query time (no 10-second expiry),
and after any manual update it reports `false`. -/
theorem C1_connectivity_flag (s : SensorDataStore) (inp : IngestInput)
    (t now c n c2 n2 : ℚ) :
    (get_current_data (receive_sensor_data s inp t c n)
        now c2 n2).2.2.sensor_values.device_connected = true ∧
    (get_current_data (update_sensors s inp t c n)
        now c2 n2).2.2.sensor_values.device_connected = false := by
  rw [response_sensorValues, response_sensorValues, sensorValues_receive, sensorValues_update]
  exact ⟨rfl, rfl⟩

/-- C2 counterexample: set the manual reading's `red_signal` to 0.5, then
clear the manual buffer; the clear succeeds (history really is emptied) but
`red_signal` stays 0.5 instead of being reset to the documented default
0.6 — `clear_buffer` never touches `sensor_values`. -/
theorem C2_counterexample :
    (clear_buffer (update_sensors initStore
        { emptyIngest with red_signal := some 0.5 } 0 0 0)
      (some "manual")).1.manual_buffer = [] ∧
    (clear_buffer (update_sensors initStore
        { emptyIngest with red_signal := some 0.5 } 0 0 0)
      (some "manual")).1.sensor_values.red_signal = 0.5 ∧
    (0.5 : ℚ) ≠ 0.6 := by
  refine ⟨rfl, rfl, by norm_num⟩

/-- C2 (corrected): for every valid source id, `clear_buffer` empties that
source's history and resets its last-generation timestamp to absent, but it
leaves the SensorReading (`sensor_values`) entirely unchanged — there is no
reset to the default {red: 0.6, ir: 0.7, temp: 36.5, motion: 0.3}. -/
theorem C2_clear_postconditions (s : SensorDataStore) (name : String)
    (h : name = "manual" ∨ name = "esp32") :
    (clear_buffer s (some name)).2 = Except.ok name ∧
    (clear_buffer s (some name)).1.buffer name = [] ∧
    (clear_buffer s (some name)).1.lastUpdate name = none ∧
    (clear_buffer s (some name)).1.sensor_values = s.sensor_values := by
  simp only [clear_buffer, Option.getD_some]
  rw [if_pos h]
  refine ⟨rfl, ?_, ?_, by simp⟩
  · rcases h with h | h <;> subst h <;> simp
  · rcases h with h | h <;> subst h <;> simp

/-- C2 witness: the corrected clear postconditions at a concrete state. -/
theorem C2_clear_postconditions_witness :
    (clear_buffer initStore (some "manual")).2 = Except.ok "manual" ∧
    (clear_buffer initStore (some "manual")).1.buffer "manual" = [] ∧
    (clear_buffer initStore (some "manual")).1.lastUpdate "manual" = none ∧
    (clear_buffer initStore (some "manual")).1.sensor_values = initStore.sensor_values :=
  C2_clear_postconditions initStore "manual" (Or.inl rfl)

/-- C3 counterexample: a device (ESP32) ingestion changes the readings the
manual source generates from: before the push a manual point snapshots
`red = 0.6`, after a device push with `red_signal = 0.1` a manual point
snapshots `red = 0.1` — the two sources do not own separate SensorReading
instances. -/
theorem C3_counterexample :
    (generate_glucose_point initStore "manual" 1 0 0).red = 0.6 ∧
    (generate_glucose_point
        (receive_sensor_data initStore { emptyIngest with red_signal := some 0.1 } 0 0 0)
        "manual" 1 0 0).red = 0.1 ∧
    (0.1 : ℚ) ≠ 0.6 := by
  refine ⟨rfl, rfl, by norm_num⟩

/-- C3 (corrected): there is a single shared SensorReading
(`sensor_values`) used by both sources — an ingestion call for either source
overwrites the reading both sources generate from — and every GlucosePoint's
sensor snapshot equals that shared SensorReading as it was at generation
time. -/
theorem C3_shared_reading_snapshot (s : SensorDataStore) (b : String)
    (now c n : ℚ) (inp : IngestInput) (t c2 n2 : ℚ) :
    ((generate_glucose_point s b now c n).red = s.sensor_values.red_signal ∧
      (generate_glucose_point s b now c n).ir = s.sensor_values.ir_signal ∧
      (generate_glucose_point s b now c n).temperature = s.sensor_values.temperature ∧
      (generate_glucose_point s b now c n).motion = s.sensor_values.motion) ∧
    (receive_sensor_data s inp t c2 n2).sensor_values =
      apply_esp32_update s.sensor_values inp t ∧
    (update_sensors s inp t c2 n2).sensor_values =
      apply_manual_update s.sensor_values inp :=
  ⟨⟨rfl, rfl, rfl, rfl⟩, sensorValues_receive s inp t c2 n2, sensorValues_update s inp t c2 n2⟩

/-- C4 counterexample: a buffer whose only point has glucose 20 makes
`estimate_range` return (12.5, 32.5), not the claimed (20 − 10, 20 + 10) =
(10, 30): the clamp `y_min = max(20, 15) = 20` runs before the recentering,
shifting the center to 22.5. -/
theorem C4_counterexample :
    estimate_range [ptG 20] = (12.5, 32.5) ∧
    estimate_range [ptG 20] ≠ (20 - 10, 20 + 10) := by
  refine ⟨by norm_num [estimate_range, ptG], by norm_num [estimate_range, ptG]⟩

/-- C4 (corrected): on a non-empty buffer where every point has the same
glucose value G with 25 ≤ G ≤ 195, `estimate_range` returns exactly
(G − 10, G + 10); outside that band the [20, 200] clamps shift the midpoint
before the recentering step, so the window is centered on the clamped
midpoint instead of G. -/
theorem C4_flat_buffer_range (p : GlucosePoint) (rest : List GlucosePoint) (G : ℚ)
    (hall : ∀ q ∈ p :: rest, q.glucose = G) (h1 : 25 ≤ G) (h2 : G ≤ 195) :
    estimate_range (p :: rest) = (G - 10, G + 10) := by
  have hp : p.glucose = G := hall p (List.mem_cons_self p rest)
  have hmem : ∀ x ∈ rest.map fun q => q.glucose, x = G := by
    intro x hx
    obtain ⟨q, hq, rfl⟩ := List.mem_map.1 hx
    exact hall q (List.mem_cons_of_mem p hq)
  have hmin : (rest.map fun q => q.glucose).foldl min p.glucose = G := by
    rw [hp]; exact foldl_min_all_eq _ G hmem
  have hmax : (rest.map fun q => q.glucose).foldl max p.glucose = G := by
    rw [hp]; exact foldl_max_all_eq _ G hmem
  simp only [estimate_range]
  rw [hmin, hmax]
  have hpad : max (5 : ℚ) ((G - G) * 0.1) = 5 := by
    rw [sub_self, zero_mul]
    exact max_eq_left (by norm_num)
  rw [hpad]
  have hymin : max (20 : ℚ) (G - 5) = G - 5 := max_eq_right (by linarith)
  have hymax : min (200 : ℚ) (G + 5) = G + 5 := min_eq_right (by linarith)
  rw [hymin, hymax, if_pos (by linarith : (G + 5) - (G - 5) < 20)]
  have hc : (G + 5 + (G - 5)) / 2 = G := by ring
  rw [hc]

/-- C4 witness: the corrected range property at a concrete flat buffer. -/
theorem C4_flat_buffer_range_witness :
    estimate_range [ptG 100] = (100 - 10, 100 + 10) :=
  C4_flat_buffer_range (ptG 100) [] 100 (by decide) (by norm_num) (by norm_num)

/-- C5 (confirmed): appending any sequence of points to an initially empty
capacity-30 deque leaves at most 30 points, and the buffer always equals the
last (up to) 30 appended points in insertion order — in particular, after
more than 30 appends it holds exactly the last 30, oldest evicted first. -/
theorem C5_fifo_capacity (xs : List GlucosePoint) :
    (appendAll xs).length ≤ 30 ∧ appendAll xs = xs.drop (xs.length - 30) := by
  have h := foldl_dequeAppend xs [] (by simp)
  simp only [List.nil_append, List.length_nil, Nat.zero_add] at h
  unfold appendAll
  refine ⟨?_, h⟩
  rw [h, List.length_drop]
  omega

/-- C6 (confirmed): when the active buffer's last-generation timestamp is
absent or at least 1 second old, `maybe_generate` generates and appends a
point and stamps the timestamp; a second invocation whose clock is less than
1 second later produces nothing and leaves the whole store unchanged. -/
theorem C6_rate_limit (s : SensorDataStore) (t1 t2 c1 n1 c2 n2 : ℚ)
    (h1 : s.lastUpdate s.active_buffer = none ∨
      ∃ t0, s.lastUpdate s.active_buffer = some t0 ∧ 1 ≤ t1 - t0)
    (h2 : t2 - t1 < 1) :
    maybe_generate s t1 c1 n1 =
      ((s.setBuffer s.active_buffer (dequeAppend (s.buffer s.active_buffer)
          (generate_glucose_point s s.active_buffer t1 c1 n1))).setLastUpdate
        s.active_buffer (some t1),
        some (generate_glucose_point s s.active_buffer t1 c1 n1)) ∧
    maybe_generate (maybe_generate s t1 c1 n1).1 t2 c2 n2 =
      ((maybe_generate s t1 c1 n1).1, none) := by
  have hg : should_generate s t1 = true := by
    unfold should_generate
    rcases h1 with h | ⟨t0, ht0, hle⟩
    · rw [h]
    · rw [ht0]
      simpa using hle
  have hfirst := maybe_generate_gen s t1 c1 n1 hg
  refine ⟨hfirst, ?_⟩
  apply maybe_generate_noop _ t2 c2 n2 t1 _ h2
  rw [hfirst]
  by_cases hb : s.active_buffer = "manual" <;> simp [hb]

/-- C6 witness: the rate limit at a concrete store and clock pair. -/
theorem C6_rate_limit_witness :
    ((1 : ℚ) / 2 - 0 < 1) ∧
    maybe_generate (maybe_generate initStore 0 0 0).1 (1 / 2) 0 0 =
      ((maybe_generate initStore 0 0 0).1, none) :=
  ⟨by norm_num,
    (C6_rate_limit initStore 0 (1 / 2) 0 0 0 0 (Or.inl rfl) (by norm_num)).2⟩

/-- C7 (confirmed): for all (rational) sensor inputs, injected circadian and
noise terms and optional previous value, `calculate_glucose` lands in
[20, 200]; and in every state reachable through the public handlers, every
stored point in either history buffer has glucose in [20, 200]. -/
theorem C7_glucose_clip_range (red ir temp motion circadian noise : ℚ)
    (prev : Option ℚ) (s : SensorDataStore) (h : Reachable s) :
    (20 ≤ calculate_glucose red ir temp motion circadian noise prev ∧
      calculate_glucose red ir temp motion circadian noise prev ≤ 200) ∧
    buffersInRange s :=
  ⟨calculate_glucose_mem red ir temp motion circadian noise prev,
    reachable_buffersInRange s h⟩

/-- C7 witness: the clip bound at concrete inputs and the buffer-range
invariant at the initial state. -/
theorem C7_glucose_clip_range_witness :
    (20 ≤ calculate_glucose 0.5 0.6 37 0.1 5 (-3) none ∧
      calculate_glucose 0.5 0.6 37 0.1 5 (-3) none ≤ 200) ∧
    buffersInRange initStore :=
  C7_glucose_clip_range 0.5 0.6 37 0.1 5 (-3) none initStore Reachable.init

/-- C8 (confirmed): `set_data_source` succeeds exactly on ids in
{"manual", "esp32"}: on success it returns the state changed only in
`active_buffer` and the `data_source` echo field (histories, timestamps and
all sensor reading fields untouched); on any other id it returns the error
and the state completely unchanged. -/
theorem C8_set_source (s : SensorDataStore) (id : String) :
    ((id = "manual" ∨ id = "esp32") →
      set_data_source s (some id) =
        ({ s with
            active_buffer := id
            sensor_values := { s.sensor_values with data_source := id } },
          Except.ok id)) ∧
    (¬(id = "manual" ∨ id = "esp32") →
      set_data_source s (some id) = (s, Except.error "Invalid data source")) := by
  constructor <;> intro h
  · simp only [set_data_source, Option.getD_some]
    rw [if_pos h]
  · simp only [set_data_source, Option.getD_some]
    rw [if_neg h]

/-- C8 witness: one valid switch and one rejected switch at the initial
state. -/
theorem C8_set_source_witness :
    ((("esp32" : String) = "manual" ∨ ("esp32" : String) = "esp32") ∧
      set_data_source initStore (some "esp32") =
        ({ initStore with
            active_buffer := "esp32"
            sensor_values := { initStore.sensor_values with data_source := "esp32" } },
          Except.ok "esp32")) ∧
    (¬(("bogus" : String) = "manual" ∨ ("bogus" : String) = "esp32") ∧
      set_data_source initStore (some "bogus") =
        (initStore, Except.error "Invalid data source")) :=
  ⟨⟨Or.inr rfl, (C8_set_source initStore "esp32").1 (Or.inr rfl)⟩,
    ⟨by decide, (C8_set_source initStore "bogus").2 (by decide)⟩⟩

/-- C9 (confirmed): `clear_buffer` with no name supplied behaves exactly as
clearing the currently active buffer, and with a name outside
{"manual", "esp32"} it reports the error and returns the state completely
unchanged. -/
theorem C9_clear_default (s : SensorDataStore) (name : String)
    (h : ¬(name = "manual" ∨ name = "esp32")) :
    clear_buffer s none = clear_buffer s (some s.active_buffer) ∧
    clear_buffer s (some name) = (s, Except.error "Invalid buffer name") := by
  constructor
  · rfl
  · simp only [clear_buffer, Option.getD_some]
    rw [if_neg h]

/-- C9 witness: the default and the rejected clear at the initial state. -/
theorem C9_clear_default_witness :
    ¬(("bogus" : String) = "manual" ∨ ("bogus" : String) = "esp32") ∧
    (clear_buffer initStore none = clear_buffer initStore (some initStore.active_buffer) ∧
      clear_buffer initStore (some "bogus") =
        (initStore, Except.error "Invalid buffer name")) :=
  ⟨by decide, C9_clear_default initStore "bogus" (by decide)⟩

/-- C10 (confirmed): an ingestion call for a source while that source is
active appends exactly one point (built from the just-updated shared
readings, no 1-second throttle) and stamps that source's last-update
timestamp with the ingestion time, so a data-read poll less than 1 second
later generates nothing and changes nothing; an ingestion call while the
source is not active appends to no buffer. -/
theorem C10_ingest_generation (s : SensorDataStore) (inp : IngestInput)
    (t t2 c n c2 n2 : ℚ) (hlt : t2 - t < 1) :
    (s.active_buffer = "esp32" →
      (receive_sensor_data s inp t c n).esp32_buffer =
        dequeAppend s.esp32_buffer
          (generate_glucose_point
            { s with sensor_values := apply_esp32_update s.sensor_values inp t }
            "esp32" t c n) ∧
      (receive_sensor_data s inp t c n).last_update_esp32 = some t ∧
      maybe_generate (receive_sensor_data s inp t c n) t2 c2 n2 =
        (receive_sensor_data s inp t c n, none)) ∧
    (¬ s.active_buffer = "esp32" →
      (receive_sensor_data s inp t c n).manual_buffer = s.manual_buffer ∧
      (receive_sensor_data s inp t c n).esp32_buffer = s.esp32_buffer) ∧
    (s.active_buffer = "manual" →
      (update_sensors s inp t c n).manual_buffer =
        dequeAppend s.manual_buffer
          (generate_glucose_point
            { s with sensor_values := apply_manual_update s.sensor_values inp }
            "manual" t c n) ∧
      (update_sensors s inp t c n).last_update_manual = some t ∧
      maybe_generate (update_sensors s inp t c n) t2 c2 n2 =
        (update_sensors s inp t c n, none)) ∧
    (¬ s.active_buffer = "manual" →
      (update_sensors s inp t c n).manual_buffer = s.manual_buffer ∧
      (update_sensors s inp t c n).esp32_buffer = s.esp32_buffer) := by
  refine ⟨fun h => ?_, fun h => ?_, fun h => ?_, fun h => ?_⟩
  · have hr := receive_active_esp32 s inp t c n h
    refine ⟨by rw [hr]; simp, by rw [hr]; simp, ?_⟩
    apply maybe_generate_noop _ t2 c2 n2 t _ hlt
    rw [hr]
    simp [h]
  · rw [receive_inactive s inp t c n h]
    exact ⟨rfl, rfl⟩
  · have hr := update_active_manual s inp t c n h
    refine ⟨by rw [hr]; simp, by rw [hr]; simp, ?_⟩
    apply maybe_generate_noop _ t2 c2 n2 t _ hlt
    rw [hr]
    simp [h]
  · rw [update_inactive s inp t c n h]
    exact ⟨rfl, rfl⟩

/-- C10 witness: a device push while the device source is active, with a
poll half a second later generating nothing. -/
theorem C10_ingest_generation_witness :
    ((1 : ℚ) / 2 - 0 < 1) ∧
    maybe_generate
        (receive_sensor_data (set_data_source initStore (some "esp32")).1 emptyIngest 0 0 0)
        (1 / 2) 0 0 =
      (receive_sensor_data (set_data_source initStore (some "esp32")).1 emptyIngest 0 0 0,
        none) :=
  ⟨by norm_num,
    ((C10_ingest_generation (set_data_source initStore (some "esp32")).1 emptyIngest
      0 (1 / 2) 0 0 0 0 (by norm_num)).1 (by decide)).2.2⟩

end SugarLevelMonitor
